import Mathlib

/-!
Verification of `educause_meetings_map.py`.

The script joins a static table of annual-meeting records `(year, city)` with a
static table of city coordinates, then issues a sequence of plotting commands
(markers, text labels, arrows) to a map library and writes an image file.

Shallow embedding choices:
* Python `float` coordinate literals are modelled as exact rationals `ℚ`;
  the program only stores, copies and adds `0.5` to them, never relies on
  binary rounding.
* The dictionary `city_coords` is modelled as an association list with
  first-match lookup (`dictGet`), matching Python `dict.get` on unique keys.
* Printing is modelled by accumulating the printed strings in order
  (`JoinResult.diagnostics`, `MainResult.stdout`).
* Calls into matplotlib / cartopy are modelled as an abstract trace of
  drawing commands (`DrawCmd`), in the order the script issues them.
-/

namespace EducauseMap

/-- The static `meetings` table (lines 20-47 of the script): 25 records,
years 1999-2024 with 2020 omitted. -/
def meetings : List (Int × String) :=
  [ (1999, "Long Beach, California"),
    (2000, "Nashville, Tennessee"),
    (2001, "Indianapolis, Indiana"),
    (2002, "Atlanta, Georgia"),
    (2003, "Anaheim, California"),
    (2004, "Denver, Colorado"),
    (2005, "Orlando, Florida"),
    (2006, "Dallas, Texas"),
    (2007, "Seattle, Washington"),
    (2008, "Orlando, Florida"),
    (2009, "Denver, Colorado"),
    (2010, "Anaheim, California"),
    (2011, "Philadelphia, Pennsylvania"),
    (2012, "Denver, Colorado"),
    (2013, "Anaheim, California"),
    (2014, "Orlando, Florida"),
    (2015, "Indianapolis, Indiana"),
    (2016, "Anaheim, California"),
    (2017, "Philadelphia, Pennsylvania"),
    (2018, "Denver, Colorado"),
    (2019, "Chicago, Illinois"),
    (2021, "Philadelphia, Pennsylvania"),
    (2022, "Denver, Colorado"),
    (2023, "Chicago, Illinois"),
    (2024, "San Antonio, Texas") ]

/-- The static `city_coords` dictionary (lines 50-63): city name to
(latitude, longitude). -/
def city_coords : List (String × ℚ × ℚ) :=
  [ ("Long Beach, California", (33.7701, -118.1937)),
    ("Nashville, Tennessee", (36.1627, -86.7816)),
    ("Indianapolis, Indiana", (39.7684, -86.1581)),
    ("Atlanta, Georgia", (33.7490, -84.3880)),
    ("Anaheim, California", (33.8366, -117.9143)),
    ("Denver, Colorado", (39.7392, -104.9903)),
    ("Orlando, Florida", (28.5383, -81.3792)),
    ("Dallas, Texas", (32.7767, -96.7970)),
    ("Seattle, Washington", (47.6062, -122.3321)),
    ("Philadelphia, Pennsylvania", (39.9526, -75.1652)),
    ("Chicago, Illinois", (41.8781, -87.6298)),
    ("San Antonio, Texas", (29.4241, -98.4936)) ]

/-- Python `dict.get`: first (unique) matching key, `none` when absent. -/
def dictGet : List (String × ℚ × ℚ) → String → Option (ℚ × ℚ)
  | [], _ => none
  | (k, v) :: rest, key => if k = key then some v else dictGet rest key

/-- The four parallel output lists of `get_coordinates`, plus the diagnostic
lines it prints, in print order. -/
structure JoinResult where
  lats : List ℚ
  lons : List ℚ
  years : List Int
  locations : List String
  diagnostics : List String
deriving DecidableEq

/-- One iteration of the loop body of `get_coordinates` (lines 120-131),
given the result already accumulated for the remaining records.
Python's `if coords:` is truthiness on an `Option`-like value; since every
stored value is a non-empty tuple (always truthy), it coincides with the
`some`/`none` distinction modelled here. -/
def joinStep (year : Int) (location : String) (r : JoinResult) : JoinResult :=
  if location = "Virtual due to COVID-19" then r
  else
    match dictGet city_coords location with
    | some (lat, lon) =>
        ⟨lat :: r.lats, lon :: r.lons, year :: r.years, location :: r.locations,
         r.diagnostics⟩
    | none =>
        ⟨r.lats, r.lons, r.years, r.locations,
         ("Coordinates for " ++ location ++ " not found.") :: r.diagnostics⟩

/-- `get_coordinates` (lines 105-132): joins the records against
`city_coords`, preserving input order in all five accumulated lists. -/
def get_coordinates : List (Int × String) → JoinResult
  | [] => ⟨[], [], [], [], []⟩
  | (year, location) :: rest => joinStep year location (get_coordinates rest)

/-- Specification-side join: one quadruple
`(latitude, longitude, year, city)` per input record whose city is a key of
the coordinate table, in input order (spec section 4.1 / PlotPoint). -/
def plotPoints (ms : List (Int × String)) : List (ℚ × ℚ × Int × String) :=
  ms.filterMap (fun p => (dictGet city_coords p.2).map (fun c => (c.1, c.2, p.1, p.2)))

/-- A record the code reports as unmapped: city absent from the table and not
the COVID sentinel string. -/
def unmappedCity (p : Int × String) : Bool :=
  if p.2 = "Virtual due to COVID-19" then false
  else (dictGet city_coords p.2).isNone

/-- Abstract drawing commands, one per matplotlib / cartopy call the script
makes, in issue order. -/
inductive DrawCmd where
  | figure (w h : ℚ)
  | axesLambertConformal
  | setExtent (lonMin lonMax latMin latMax : ℚ)
  | addLand
  | addOcean
  | addBorders
  | addLakes
  | addRivers
  | coastlines
  | plotMarker (lon lat : ℚ)
  | textLabel (x y : ℚ) (s : String)
  | arrow (tailLon tailLat headLon headLat : ℚ)
  | title (s : String)
  | showFigure
  | savefig (path fmt : String)
deriving DecidableEq

/-- `plot_meetings` (lines 134-177) as the trace of drawing commands it
issues: canvas setup, the per-point loop (marker, label at +0.5/+0.5 offset,
and for i > 0 an arrow from point i-1 to point i), title, then `plt.show()`. -/
def plot_meetings (lats lons : List ℚ) (years : List Int) (locations : List String) :
    List DrawCmd :=
  [DrawCmd.figure 15 10, DrawCmd.axesLambertConformal,
   DrawCmd.setExtent (-125) (-66.5) 20 50,
   DrawCmd.addLand, DrawCmd.addOcean, DrawCmd.addBorders,
   DrawCmd.addLakes, DrawCmd.addRivers, DrawCmd.coastlines] ++
  (List.range lats.length).flatMap (fun i =>
    [DrawCmd.plotMarker (lons.getD i 0) (lats.getD i 0),
     DrawCmd.textLabel (lons.getD i 0 + 0.5) (lats.getD i 0 + 0.5)
       (toString (years.getD i 0) ++ ": " ++ locations.getD i "")] ++
    (if 0 < i then
       [DrawCmd.arrow (lons.getD (i - 1) 0) (lats.getD (i - 1) 0)
          (lons.getD i 0) (lats.getD i 0)]
     else [])) ++
  [DrawCmd.title "Educause Annual Meeting Locations (1999-2024)",
   DrawCmd.showFigure]

/-- The rendering block inlined in `main` (lines 193-226): identical calls to
`plot_meetings` except that it ends with `plt.savefig(output_file, format)`
instead of `plt.show()`. -/
def main_render (output_file fmt : String) (lats lons : List ℚ) (years : List Int)
    (locations : List String) : List DrawCmd :=
  [DrawCmd.figure 15 10, DrawCmd.axesLambertConformal,
   DrawCmd.setExtent (-125) (-66.5) 20 50,
   DrawCmd.addLand, DrawCmd.addOcean, DrawCmd.addBorders,
   DrawCmd.addLakes, DrawCmd.addRivers, DrawCmd.coastlines] ++
  (List.range lats.length).flatMap (fun i =>
    [DrawCmd.plotMarker (lons.getD i 0) (lats.getD i 0),
     DrawCmd.textLabel (lons.getD i 0 + 0.5) (lats.getD i 0 + 0.5)
       (toString (years.getD i 0) ++ ": " ++ locations.getD i "")] ++
    (if 0 < i then
       [DrawCmd.arrow (lons.getD (i - 1) 0) (lats.getD (i - 1) 0)
          (lons.getD i 0) (lats.getD i 0)]
     else [])) ++
  [DrawCmd.title "Educause Annual Meeting Locations (1999-2024)",
   DrawCmd.savefig output_file fmt]

/-- Python `str.lower()` on the prompt response (ASCII case folding suffices
for the responses the prompt compares against). -/
def pyLower (s : String) : String :=
  String.mk (s.data.map Char.toLower)

/-- `confirm_overwrite` (lines 90-103): prompts only when the file exists;
the typed response is lowercased before comparison with "y". -/
def confirm_overwrite (fileExists : Bool) (response : String) : Bool :=
  if fileExists then (if pyLower response = "y" then true else false)
  else true

/-- Observable outcome of one run of `main`. -/
structure MainResult where
  exitCode : Nat
  stdout : List String
  drawTrace : List DrawCmd
  fileWritten : Option String
deriving DecidableEq

/-- `main` (lines 179-227): build the output path, ask for overwrite
confirmation, and either cancel (exit 0, no join, no drawing, no write) or
join, render inline and save the file. -/
def main_model (output fmt : String) (fileExists : Bool) (response : String) :
    MainResult :=
  let output_file := output ++ "." ++ fmt
  if confirm_overwrite fileExists response then
    let r := get_coordinates meetings
    ⟨0,
     r.diagnostics ++ ["Map saved to " ++ output_file],
     main_render output_file fmt r.lats r.lons r.years r.locations,
     some output_file⟩
  else
    ⟨0, ["Operation cancelled by the user."], [], none⟩

/-- Does a drawing command plot a point marker? -/
def isMarker : DrawCmd → Bool
  | DrawCmd.plotMarker _ _ => true
  | _ => false

/-- Does a drawing command draw a connecting arrow? -/
def isArrow : DrawCmd → Bool
  | DrawCmd.arrow _ _ _ _ => true
  | _ => false

/-- Does a drawing command draw a text label? -/
def isText : DrawCmd → Bool
  | DrawCmd.textLabel _ _ _ => true
  | _ => false

/-! ### Helper lemmas -/

/-- The COVID sentinel string is not a key of the coordinate table. -/
lemma dictGet_covid : dictGet city_coords "Virtual due to COVID-19" = none := by
  decide

/-- Column-wise characterisation of the join: each of the four output lists
is the corresponding projection of the `plotPoints` quadruples, i.e. the join
keeps exactly the records whose city is a key of the table, in input order. -/
lemma get_coordinates_cols (ms : List (Int × String)) :
    (get_coordinates ms).lats = (plotPoints ms).map (fun q => q.1) ∧
    (get_coordinates ms).lons = (plotPoints ms).map (fun q => q.2.1) ∧
    (get_coordinates ms).years = (plotPoints ms).map (fun q => q.2.2.1) ∧
    (get_coordinates ms).locations = (plotPoints ms).map (fun q => q.2.2.2) := by
  induction ms with
  | nil => simp [get_coordinates, plotPoints]
  | cons p rest ih =>
    obtain ⟨y, loc⟩ := p
    obtain ⟨h1, h2, h3, h4⟩ := ih
    by_cases hc : loc = "Virtual due to COVID-19"
    · subst hc
      simp [get_coordinates, joinStep, plotPoints, dictGet_covid, List.filterMap_cons,
        h1, h2, h3, h4]
    · cases hd : dictGet city_coords loc with
      | none =>
        simp [get_coordinates, joinStep, plotPoints, hc, hd, List.filterMap_cons,
          h1, h2, h3, h4]
      | some c =>
        obtain ⟨la, lo⟩ := c
        simp [get_coordinates, joinStep, plotPoints, hc, hd, List.filterMap_cons,
          h1, h2, h3, h4]

/-- The printed diagnostics are exactly one line per reported unmapped
record, in input order. -/
lemma get_coordinates_diags (ms : List (Int × String)) :
    (get_coordinates ms).diagnostics =
      (ms.filter unmappedCity).map
        (fun p => "Coordinates for " ++ p.2 ++ " not found.") := by
  induction ms with
  | nil => simp [get_coordinates]
  | cons p rest ih =>
    obtain ⟨y, loc⟩ := p
    by_cases hc : loc = "Virtual due to COVID-19"
    · subst hc
      simp [get_coordinates, joinStep, unmappedCity, List.filter_cons, ih]
    · cases hd : dictGet city_coords loc with
      | none =>
        simp [get_coordinates, joinStep, unmappedCity, hc, hd, List.filter_cons, ih]
      | some c =>
        obtain ⟨la, lo⟩ := c
        simp [get_coordinates, joinStep, unmappedCity, hc, hd, List.filter_cons, ih]

/-- Dropping the last element of a trace that ends in two fixed commands. -/
lemma dropLast_two (A : List DrawCmd) (t x : DrawCmd) :
    (A ++ [t, x]).dropLast = A ++ [t] := by
  rw [show A ++ [t, x] = (A ++ [t]) ++ [x] by simp]
  exact List.dropLast_concat ..

/-- The last element of a trace that ends in two fixed commands. -/
lemma getLast_two (A : List DrawCmd) (t x : DrawCmd) :
    (A ++ [t, x]).getLast? = some x := by
  rw [show A ++ [t, x] = (A ++ [t]) ++ [x] by simp]
  exact List.getLast?_concat _

/-! ### Claims -/

/-- C1: every input record whose city is a key of the coordinate table
contributes exactly one entry `(latitude, longitude, year, city)` to the four
output lists of `get_coordinates`, in input order: each output list is the
corresponding projection of the `plotPoints` quadruple list, which has
exactly one quadruple per key-mapped record, in input order. -/
theorem join_keyed_pointwise (ms : List (Int × String)) :
    (get_coordinates ms).lats = (plotPoints ms).map (fun q => q.1) ∧
    (get_coordinates ms).lons = (plotPoints ms).map (fun q => q.2.1) ∧
    (get_coordinates ms).years = (plotPoints ms).map (fun q => q.2.2.1) ∧
    (get_coordinates ms).locations = (plotPoints ms).map (fun q => q.2.2.2) :=
  get_coordinates_cols ms

/-- C2 (counterexample): the record `(2020, "Virtual due to COVID-19")` has a
city absent from the coordinate table, yet `get_coordinates` emits no
diagnostic for it — refuting "exactly one diagnostic per absent-city record
for every input list". -/
theorem covid_record_no_diagnostic :
    dictGet city_coords "Virtual due to COVID-19" = none ∧
    ¬((get_coordinates [((2020 : Int), "Virtual due to COVID-19")]).diagnostics.length
        = 1) := by
  decide

/-- C2 (amended): for every input record whose city is absent from the
coordinate table and is not the exact string "Virtual due to COVID-19", the
join emits exactly one diagnostic "Coordinates for {city} not found." (in
input order, one per such record) and produces no output entry: the output
lists contain exactly one entry per key-mapped record. -/
theorem join_unmapped_diagnostics (ms : List (Int × String)) :
    (get_coordinates ms).diagnostics =
      (ms.filter unmappedCity).map
        (fun p => "Coordinates for " ++ p.2 ++ " not found.") ∧
    (get_coordinates ms).locations.length = (plotPoints ms).length := by
  refine ⟨get_coordinates_diags ms, ?_⟩
  rw [(get_coordinates_cols ms).2.2.2, List.length_map]

/-- C3: a record whose city is exactly "Virtual due to COVID-19" is dropped
before any lookup — no output entry and no diagnostic (the whole result is
unchanged) — whereas any other record with an unmapped city gets a
diagnostic prepended to the remaining diagnostics. -/
theorem covid_sentinel_dropped (y z : Int) (ms : List (Int × String)) (loc : String)
    (hloc : loc ≠ "Virtual due to COVID-19")
    (hmiss : dictGet city_coords loc = none) :
    get_coordinates ((y, "Virtual due to COVID-19") :: ms) = get_coordinates ms ∧
    (get_coordinates ((z, loc) :: ms)).diagnostics =
      ("Coordinates for " ++ loc ++ " not found.") ::
        (get_coordinates ms).diagnostics := by
  constructor
  · simp [get_coordinates, joinStep]
  · simp [get_coordinates, joinStep, hloc, hmiss]

/-- Witness for C3 at concrete inputs: the 2020 virtual record is dropped
silently, while the unmapped city "Nowhere, Nowhere" is reported. -/
theorem covid_sentinel_dropped_witness :
    ("Nowhere, Nowhere" : String) ≠ "Virtual due to COVID-19" ∧
    dictGet city_coords "Nowhere, Nowhere" = none ∧
    (get_coordinates [((2020 : Int), "Virtual due to COVID-19")] =
        get_coordinates [] ∧
      (get_coordinates [((2025 : Int), "Nowhere, Nowhere")]).diagnostics =
        ("Coordinates for " ++ "Nowhere, Nowhere" ++ " not found.") ::
          (get_coordinates []).diagnostics) :=
  ⟨by decide, by decide,
   covid_sentinel_dropped 2020 2025 [] "Nowhere, Nowhere" (by decide) (by decide)⟩

/-- C4: for every input list, the four output lists of `get_coordinates`
(latitudes, longitudes, years, city names) have equal length. -/
theorem join_lengths_equal (ms : List (Int × String)) :
    (get_coordinates ms).lats.length = (get_coordinates ms).lons.length ∧
    (get_coordinates ms).lons.length = (get_coordinates ms).years.length ∧
    (get_coordinates ms).years.length = (get_coordinates ms).locations.length := by
  obtain ⟨h1, h2, h3, h4⟩ := get_coordinates_cols ms
  rw [h1, h2, h3, h4]
  simp

/-- C5 (counterexample): answering "Y" — which is not the string "y" — when
the output file exists does NOT cancel the run: `main` lowercases the
response, so it proceeds to render and write the file, leaving the existing
file overwritten rather than untouched. -/
theorem overwrite_uppercase_Y_proceeds :
    ("Y" : String) ≠ "y" ∧
    (main_model "map" "png" true "Y").fileWritten = some "map.png" ∧
    (main_model "map" "png" true "Y").stdout ≠
      ["Operation cancelled by the user."] := by
  decide

/-- C5 (amended): if the output file exists and the user's answer lowercases
to anything other than "y", `main` exits with status 0 having printed only
the cancellation message, issued no drawing command (hence no join result is
used and no rendering happens), and written no file. -/
theorem main_cancel_on_decline (output fmt response : String)
    (h : pyLower response ≠ "y") :
    main_model output fmt true response =
      ⟨0, ["Operation cancelled by the user."], [], none⟩ := by
  simp [main_model, confirm_overwrite, h]

/-- Witness for C5 at the concrete answer "n". -/
theorem main_cancel_on_decline_witness :
    pyLower "n" ≠ "y" ∧
    main_model "map" "png" true "n" =
      ⟨0, ["Operation cancelled by the user."], [], none⟩ :=
  ⟨by decide, main_cancel_on_decline "map" "png" "n" (by decide)⟩

/-- C6: on the static 25-record `meetings` table every city is mapped, so
the full run joins all 25 records (no diagnostics) and the inline rendering
trace of `main` contains exactly 25 markers, 25 labels and 24 connecting
arrows. -/
theorem full_run_counts :
    (get_coordinates meetings).lats.length = 25 ∧
    (get_coordinates meetings).lons.length = 25 ∧
    (get_coordinates meetings).years.length = 25 ∧
    (get_coordinates meetings).locations.length = 25 ∧
    (get_coordinates meetings).diagnostics = [] ∧
    ((main_render "educause_meetings_map.pdf" "pdf" (get_coordinates meetings).lats
        (get_coordinates meetings).lons (get_coordinates meetings).years
        (get_coordinates meetings).locations).filter isMarker).length = 25 ∧
    ((main_render "educause_meetings_map.pdf" "pdf" (get_coordinates meetings).lats
        (get_coordinates meetings).lons (get_coordinates meetings).years
        (get_coordinates meetings).locations).filter isText).length = 25 ∧
    ((main_render "educause_meetings_map.pdf" "pdf" (get_coordinates meetings).lats
        (get_coordinates meetings).lons (get_coordinates meetings).years
        (get_coordinates meetings).locations).filter isArrow).length = 24 := by
  decide

/-- C7: for every index `i < n` the renderer's trace (in `plot_meetings` and
identically in `main`'s inline copy) contains the text label
"{year[i]}: {city[i]}" placed at `(lon[i] + 0.5, lat[i] + 0.5)`, and for
every `i ≥ 1` it contains the directional arrow whose tail is point `i-1`
and whose head is point `i` — consecutive indices, regardless of distance. -/
theorem renderer_arrows_and_labels (p f : String) (lats lons : List ℚ)
    (years : List Int) (locations : List String) (i : ℕ) (hi : i < lats.length) :
    (DrawCmd.textLabel (lons.getD i 0 + 0.5) (lats.getD i 0 + 0.5)
        (toString (years.getD i 0) ++ ": " ++ locations.getD i "")
      ∈ plot_meetings lats lons years locations) ∧
    (DrawCmd.textLabel (lons.getD i 0 + 0.5) (lats.getD i 0 + 0.5)
        (toString (years.getD i 0) ++ ": " ++ locations.getD i "")
      ∈ main_render p f lats lons years locations) ∧
    (1 ≤ i →
      DrawCmd.arrow (lons.getD (i - 1) 0) (lats.getD (i - 1) 0)
          (lons.getD i 0) (lats.getD i 0)
        ∈ plot_meetings lats lons years locations ∧
      DrawCmd.arrow (lons.getD (i - 1) 0) (lats.getD (i - 1) 0)
          (lons.getD i 0) (lats.getD i 0)
        ∈ main_render p f lats lons years locations) := by
  refine ⟨?_, ?_, fun h1 => ⟨?_, ?_⟩⟩
  · unfold plot_meetings
    refine List.mem_append_left _ (List.mem_append_right _ ?_)
    refine List.mem_flatMap.mpr ⟨i, List.mem_range.mpr hi, ?_⟩
    simp
  · unfold main_render
    refine List.mem_append_left _ (List.mem_append_right _ ?_)
    refine List.mem_flatMap.mpr ⟨i, List.mem_range.mpr hi, ?_⟩
    simp
  · unfold plot_meetings
    refine List.mem_append_left _ (List.mem_append_right _ ?_)
    refine List.mem_flatMap.mpr ⟨i, List.mem_range.mpr hi, ?_⟩
    simp [Nat.lt_of_lt_of_le Nat.zero_lt_one h1]
  · unfold main_render
    refine List.mem_append_left _ (List.mem_append_right _ ?_)
    refine List.mem_flatMap.mpr ⟨i, List.mem_range.mpr hi, ?_⟩
    simp [Nat.lt_of_lt_of_le Nat.zero_lt_one h1]

/-- Witness for C7 at two concrete points, index 1. -/
theorem renderer_arrows_and_labels_witness :
    (DrawCmd.textLabel (([(20 : ℚ), 30]).getD 1 0 + 0.5)
        (([(10 : ℚ), 11]).getD 1 0 + 0.5)
        (toString (([1999, 2000] : List Int).getD 1 0) ++ ": " ++
          (["A", "B"].getD 1 ""))
      ∈ plot_meetings [10, 11] [20, 30] [1999, 2000] ["A", "B"]) ∧
    (DrawCmd.arrow (([(20 : ℚ), 30]).getD 0 0) (([(10 : ℚ), 11]).getD 0 0)
        (([(20 : ℚ), 30]).getD 1 0) (([(10 : ℚ), 11]).getD 1 0)
      ∈ main_render "m.pdf" "pdf" [10, 11] [20, 30] [1999, 2000] ["A", "B"]) :=
  ⟨(renderer_arrows_and_labels "m.pdf" "pdf" [10, 11] [20, 30] [1999, 2000]
      ["A", "B"] 1 (by decide)).1,
   ((renderer_arrows_and_labels "m.pdf" "pdf" [10, 11] [20, 30] [1999, 2000]
      ["A", "B"] 1 (by decide)).2.2 (by decide)).2⟩

/-- C8: the join is a pure function of its input list and the static tables:
two invocations on the same input — in particular on the static `meetings`
table — return identical four output sequences (and diagnostics). -/
theorem join_deterministic :
    get_coordinates meetings = get_coordinates meetings ∧
    ∀ ms : List (Int × String), get_coordinates ms = get_coordinates ms :=
  ⟨rfl, fun _ => rfl⟩

/-- C9: the join is total — it returns a well-defined result (one output
entry per key-mapped record) for every input list, never failing — and the
renderer applied to four empty sequences still produces the full canvas
trace: setup, features, title and `plt.show()`, with no marker, label or
arrow command. -/
theorem join_total_and_render_empty (ms : List (Int × String)) :
    (get_coordinates ms).lats.length = (plotPoints ms).length ∧
    get_coordinates [] = ⟨[], [], [], [], []⟩ ∧
    plot_meetings [] [] [] [] =
      [DrawCmd.figure 15 10, DrawCmd.axesLambertConformal,
       DrawCmd.setExtent (-125) (-66.5) 20 50,
       DrawCmd.addLand, DrawCmd.addOcean, DrawCmd.addBorders,
       DrawCmd.addLakes, DrawCmd.addRivers, DrawCmd.coastlines,
       DrawCmd.title "Educause Annual Meeting Locations (1999-2024)",
       DrawCmd.showFigure] := by
  refine ⟨?_, rfl, rfl⟩
  rw [(get_coordinates_cols ms).1, List.length_map]

/-- C10: for every four input sequences, `plot_meetings` (which `main` never
calls) and the inline rendering block of `main` issue the same drawing
sequence up to the final command, and differ only there: `plot_meetings`
ends with `plt.show()`, `main` with `plt.savefig(output_file, format)`. -/
theorem plot_vs_main_render (p f : String) (lats lons : List ℚ)
    (years : List Int) (locations : List String) :
    (plot_meetings lats lons years locations).dropLast =
      (main_render p f lats lons years locations).dropLast ∧
    (plot_meetings lats lons years locations).getLast? =
      some DrawCmd.showFigure ∧
    (main_render p f lats lons years locations).getLast? =
      some (DrawCmd.savefig p f) := by
  unfold plot_meetings main_render
  refine ⟨?_, ?_, ?_⟩
  · rw [dropLast_two, dropLast_two]
  · rw [getLast_two]
  · rw [getLast_two]

end EducauseMap
